import Mathlib

/-!
Verification of the null-terminated string-length core: a `String_Literal`
view over a character sequence and the `strlen` routine of `src/strlen.cpp`,
exercised by `src/t_strlen.cpp`.
-/

/-- Modelled from the spec: the failure conditions observable through the
requirement mechanism of `solid/require.h` (not under `src/`): the named
`NullReference` condition raised on null construction of a String Literal
view, and the generic require-violation abort raised by a failed test
assertion. -/
inductive FailureCondition where
  | NullReference
  | GenericRequireViolation
deriving DecidableEq, Repr

/-- Modelled from the spec: the error object of `solid::require` (header not
under `src/`): the harness's generic require-violation error type, carrying
its named failure condition. Catching this type catches every failure of the
system. -/
structure Require.Error where
  condition : FailureCondition
deriving DecidableEq, Repr

/-- Modelled from the spec: a String Literal view wraps a reference to a
character of a contiguous null-terminated sequence (`string-literal.h` is not
under `src/`). A non-null reference is a buffer of byte values together with
a position into it, the index form of C++ pointer arithmetic. -/
structure String_Literal where
  buf : List Nat
  idx : Nat
deriving DecidableEq, Repr

/-- Modelled from the spec: dereference — read the character currently
referenced. Reading at or past the end of the modelled storage yields the
terminator value; the verified scans below never perform such a read on a
terminated sequence. -/
def String_Literal.deref (s : String_Literal) : Nat :=
  s.buf.getD s.idx 0

/-- Modelled from the spec: advance — move the view's reference to the next
character (`++cur`). -/
def String_Literal.advance (s : String_Literal) : String_Literal :=
  ⟨s.buf, s.idx + 1⟩

/-- Modelled from the spec: raw-reference access (`.ptr()`), used only for
pointer-distance computation between two views over the same sequence;
modelled as the position. -/
def String_Literal.ptr (s : String_Literal) : Nat :=
  s.idx

/-- Modelled from the spec: the boolean "is terminator" check — true when the
currently referenced character equals the terminator value zero. The loop
condition `*cur` of `src/strlen.cpp` continues while this is false. -/
def String_Literal.isTerminator (s : String_Literal) : Bool :=
  s.deref == 0

/-- Modelled from the spec: the String Literal constructor
(`string-literal.h` is not under `src/`): a null reference fails with the
`NullReference` condition before any view value exists; a non-null reference
is wrapped with no further validation. -/
def String_Literal.make : Option (List Nat × Nat) → Except Require.Error String_Literal
  | none => Except.error ⟨FailureCondition.NullReference⟩
  | some (buf, idx) => Except.ok ⟨buf, idx⟩

/-- The scan loop of `strlen` (`src/strlen.cpp`): `for (; *cur; ++cur) { }` —
advance the cursor while the dereferenced character is not the terminator;
returns the final cursor. -/
def strlenLoop (cur : String_Literal) : String_Literal :=
  if cur.deref = 0 then cur
  else strlenLoop cur.advance
termination_by cur.buf.length - cur.idx
decreasing_by
  rename_i h
  have hlt : cur.idx < cur.buf.length := by
    by_contra hge
    exact h (by
      unfold String_Literal.deref
      rw [List.getD_eq_default _ _ (Nat.le_of_not_lt hge)])
  simp only [String_Literal.advance]
  omega

/-- The number of loop iterations (equivalently, advance operations) that the
scan of `src/strlen.cpp` performs before reaching the terminator. -/
def strlenIters (cur : String_Literal) : Nat :=
  if cur.deref = 0 then 0
  else strlenIters cur.advance + 1
termination_by cur.buf.length - cur.idx
decreasing_by
  rename_i h
  have hlt : cur.idx < cur.buf.length := by
    by_contra hge
    exact h (by
      unfold String_Literal.deref
      rw [List.getD_eq_default _ _ (Nat.le_of_not_lt hge)])
  simp only [String_Literal.advance]
  omega

/-- The routine `strlen` (`src/strlen.cpp`): copy the view into a cursor, scan to the
terminator, return the pointer distance from the cursor back to the start. -/
def strlen (str : String_Literal) : Nat :=
  let cur := strlenLoop str
  cur.ptr - str.ptr

/-- The test `test_null_strlen` (`src/t_strlen.cpp`): construct a String Literal from
the null reference under a handler for `solid::require::Error`; the result is
the `got_exception` flag. -/
def test_null_strlen : Bool :=
  match String_Literal.make none with
  | Except.error _ => true
  | Except.ok _ => false

/-! Helper lemmas about the scan. -/

theorem String_Literal.idx_lt_of_deref_ne (v : String_Literal) (h : v.deref ≠ 0) :
    v.idx < v.buf.length := by
  by_contra hge
  exact h (by
    unfold String_Literal.deref
    rw [List.getD_eq_default _ _ (Nat.le_of_not_lt hge)])

theorem strlenIters_term {v : String_Literal} (h : v.deref = 0) :
    strlenIters v = 0 := by
  rw [strlenIters]
  simp [h]

theorem strlenIters_step {v : String_Literal} (h : v.deref ≠ 0) :
    strlenIters v = strlenIters v.advance + 1 := by
  rw [strlenIters]
  simp [h]

theorem strlenLoop_term {v : String_Literal} (h : v.deref = 0) :
    strlenLoop v = v := by
  rw [strlenLoop]
  simp [h]

theorem strlenLoop_step {v : String_Literal} (h : v.deref ≠ 0) :
    strlenLoop v = strlenLoop v.advance := by
  rw [strlenLoop]
  simp [h]

/-- The final cursor of the scan: same buffer, position moved forward by the
number of loop iterations. -/
theorem strlenLoop_eq_iters (v : String_Literal) :
    strlenLoop v = ⟨v.buf, v.idx + strlenIters v⟩ := by
  by_cases h : v.deref = 0
  · rw [strlenLoop_term h, strlenIters_term h]
    rfl
  · rw [strlenLoop_step h, strlenIters_step h, strlenLoop_eq_iters v.advance]
    simp only [String_Literal.advance, String_Literal.mk.injEq]
    exact ⟨trivial, by omega⟩
termination_by v.buf.length - v.idx
decreasing_by
  have := String_Literal.idx_lt_of_deref_ne v h
  simp only [String_Literal.advance]
  omega

/-- The pointer distance returned by `strlen` equals the number of loop
iterations performed. -/
theorem strlen_eq_iters (v : String_Literal) : strlen v = strlenIters v := by
  simp [strlen, strlenLoop_eq_iters, String_Literal.ptr]

/-! The claims. -/

/-- C1: for every valid view, `strlen` returns exactly the number of advance
operations needed, starting from the view's initial position, to reach the
first position whose character is the terminator — the count of characters
preceding the first terminator. -/
theorem strlen_eq_advance_count (v : String_Literal) (n : Nat)
    (hterm : (String_Literal.advance^[n] v).isTerminator = true)
    (hfirst : ∀ m, m < n → (String_Literal.advance^[m] v).isTerminator = false) :
    strlen v = n := by
  rw [strlen_eq_iters]
  induction n generalizing v with
  | zero =>
    have h0 : v.deref = 0 := by
      simpa [String_Literal.isTerminator] using hterm
    exact strlenIters_term h0
  | succ n ih =>
    have h0 : v.deref ≠ 0 := by
      have hf := hfirst 0 (Nat.succ_pos n)
      simpa [String_Literal.isTerminator] using hf
    rw [strlenIters_step h0]
    have hterm' : (String_Literal.advance^[n] v.advance).isTerminator = true := by
      rw [← Function.iterate_succ_apply]
      exact hterm
    have hfirst' : ∀ m, m < n →
        (String_Literal.advance^[m] v.advance).isTerminator = false := by
      intro m hm
      rw [← Function.iterate_succ_apply]
      exact hfirst (m + 1) (Nat.succ_lt_succ hm)
    rw [ih v.advance hterm' hfirst']

/-- Witness for C1 at the view of "ab": two advances reach the terminator and
`strlen` returns 2. -/
theorem strlen_eq_advance_count_witness : strlen ⟨[97, 98, 0], 0⟩ = 2 :=
  strlen_eq_advance_count ⟨[97, 98, 0], 0⟩ 2 (by decide) (by decide)

/-- C2: constructing a String Literal view from a reference raises the
`NullReference` failure (before any view value exists) if and only if the
supplied reference is null, at every call site. -/
theorem make_null_error_iff (r : Option (List Nat × Nat)) :
    String_Literal.make r = Except.error ⟨FailureCondition.NullReference⟩ ↔
      r = none := by
  cases r with
  | none => simp [String_Literal.make]
  | some p =>
    cases p
    simp [String_Literal.make]

/-- C3: the failure raised on null construction is the distinct, named
`NullReference` condition, carried by a catchable error object and
distinguishable from the generic require-violation condition. -/
theorem null_failure_distinct_condition :
    (∃ e : Require.Error, String_Literal.make none = Except.error e ∧
      e.condition = FailureCondition.NullReference) ∧
    FailureCondition.NullReference ≠ FailureCondition.GenericRequireViolation :=
  ⟨⟨⟨FailureCondition.NullReference⟩, rfl, rfl⟩, by decide⟩

/-- C4: for the stored bytes 'a', 0, 'b' the length is 1, and the result is 1
whatever bytes follow the embedded terminator: the scan stops at the first
terminator and never counts past it. -/
theorem strlen_stops_at_first_terminator :
    strlen ⟨[97, 0, 98], 0⟩ = 1 ∧
    ∀ extra : List Nat, strlen ⟨97 :: 0 :: extra, 0⟩ = 1 := by
  constructor
  · rw [strlen_eq_iters,
      strlenIters_step (v := ⟨[97, 0, 98], 0⟩) (by decide),
      strlenIters_term (by decide)]
  · intro extra
    rw [strlen_eq_iters,
      strlenIters_step (by simp [String_Literal.deref]),
      strlenIters_term (by simp [String_Literal.deref, String_Literal.advance])]

/-- C5: a view of an empty sequence — one whose first character is already
the terminator — is constructed successfully and its length is 0. -/
theorem strlen_empty_sequence (buf : List Nat) (idx : Nat)
    (h : String_Literal.deref ⟨buf, idx⟩ = 0) :
    String_Literal.make (some (buf, idx)) = Except.ok ⟨buf, idx⟩ ∧
    strlen ⟨buf, idx⟩ = 0 :=
  ⟨rfl, by rw [strlen_eq_iters, strlenIters_term h]⟩

/-- Witness for C5 at the view of "": construction succeeds and length is
zero. -/
theorem strlen_empty_sequence_witness :
    String_Literal.make (some ([0], 0)) = Except.ok ⟨[0], 0⟩ ∧
    strlen ⟨[0], 0⟩ = 0 :=
  strlen_empty_sequence [0] 0 (by decide)

/-- C6: constructing a String Literal view from any non-null reference always
succeeds and wraps exactly the supplied reference — no validation beyond the
null check. -/
theorem make_nonnull_ok (buf : List Nat) (idx : Nat) :
    String_Literal.make (some (buf, idx)) = Except.ok ⟨buf, idx⟩ :=
  rfl

/-- C7: `strlen` on two independent copies of the same originally-constructed
view returns the same value both times, and the scan only moves its local
cursor: the underlying sequence reachable from the caller's view is
unchanged. -/
theorem strlen_pure_on_copies (v c₁ c₂ : String_Literal)
    (h₁ : c₁ = v) (h₂ : c₂ = v) :
    strlen c₁ = strlen c₂ ∧ (strlenLoop v).buf = v.buf := by
  subst h₁
  subst h₂
  exact ⟨rfl, by rw [strlenLoop_eq_iters]⟩

/-- Witness for C7 at the view of "abc". -/
theorem strlen_pure_on_copies_witness :
    strlen ⟨[97, 98, 99, 0], 0⟩ = strlen ⟨[97, 98, 99, 0], 0⟩ ∧
    (strlenLoop ⟨[97, 98, 99, 0], 0⟩).buf = [97, 98, 99, 0] :=
  strlen_pure_on_copies ⟨[97, 98, 99, 0], 0⟩ _ _ rfl rfl

/-- C8: when the underlying sequence holds a terminator at offset `k` from
the view's position, the scan terminates and performs at most `k`
iterations — the iteration count is bounded by the position of the first
terminator. -/
theorem strlenIters_bounded_by_terminator_pos (v : String_Literal) (k : Nat)
    (hterm : v.buf[v.idx + k]? = some 0) :
    strlenIters v ≤ k := by
  induction k generalizing v with
  | zero =>
    have h0 : v.deref = 0 := by
      unfold String_Literal.deref
      rw [List.getD_eq_getElem?_getD]
      simpa using congrArg (Option.getD · 0) hterm
    rw [strlenIters_term h0]
  | succ k ih =>
    by_cases h : v.deref = 0
    · rw [strlenIters_term h]
      exact Nat.zero_le _
    · rw [strlenIters_step h]
      have hterm' : v.advance.buf[v.advance.idx + k]? = some 0 := by
        simp only [String_Literal.advance]
        rw [show v.idx + 1 + k = v.idx + (k + 1) by omega]
        exact hterm
      exact Nat.succ_le_succ (ih v.advance hterm')

/-- Witness for C8 at the view of "abc": the terminator sits at offset 3 and
the scan makes at most 3 iterations. -/
theorem strlenIters_bounded_by_terminator_pos_witness :
    strlenIters ⟨[97, 98, 99, 0], 0⟩ ≤ 3 :=
  strlenIters_bounded_by_terminator_pos ⟨[97, 98, 99, 0], 0⟩ 3 (by decide)

/-- C9: the failure raised when constructing a String Literal view from the
null reference is caught by a handler for the harness's generic
require-violation error type, exactly as `test_null_strlen` does: the test's
`got_exception` flag is set. -/
theorem test_null_strlen_passes : test_null_strlen = true :=
  rfl

/-- C10: when the view's current character is not the terminator,
`strlen v = 1 + strlen (advance v)`; and `strlen v = 0` exactly when the
current character is the terminator. -/
theorem strlen_recurrence (v : String_Literal) :
    (v.isTerminator = false → strlen v = 1 + strlen v.advance) ∧
    (strlen v = 0 ↔ v.isTerminator = true) := by
  have hstep : v.isTerminator = false → strlen v = 1 + strlen v.advance := by
    intro h
    have h0 : v.deref ≠ 0 := by
      simpa [String_Literal.isTerminator] using h
    rw [strlen_eq_iters, strlen_eq_iters, strlenIters_step h0]
    omega
  refine ⟨hstep, ?_, ?_⟩
  · intro hz
    cases hb : v.isTerminator with
    | true => rfl
    | false =>
      have := hstep hb
      omega
  · intro ht
    have h0 : v.deref = 0 := by
      simpa [String_Literal.isTerminator] using ht
    rw [strlen_eq_iters, strlenIters_term h0]

/-- Witness for C10 at the view of "a". -/
theorem strlen_recurrence_witness :
    strlen ⟨[97, 0], 0⟩ = 1 + strlen (String_Literal.advance ⟨[97, 0], 0⟩) ∧
    (strlen ⟨[97, 0], 0⟩ = 0 ↔ String_Literal.isTerminator ⟨[97, 0], 0⟩ = true) :=
  ⟨(strlen_recurrence ⟨[97, 0], 0⟩).1 (by decide),
    (strlen_recurrence ⟨[97, 0], 0⟩).2⟩
